import Mathlib

/-!
Verification of the client-side cache-and-sync layer of the
Salakpra-Erawan FireOp Tracker.

The embedding below translates, from the source:
  * `apiService.ts`: `sendRequest`, `fixDriveUrl`, `getActivities`,
    `getHotspots`, `factoryReset`, the cache key layout;
  * the current `App` component (`src/unnamed/part_000`, first document):
    `loadData` (stale-while-revalidate read path), the optimistic write
    handlers `handleSaveActivity`, `handleDeleteActivity`,
    `handleSaveHotspot`, `handleDeleteHotspot`, `handleFactoryReset`,
    and the relevant part of `renderContent`.

Records are modelled with the fields the sync core observes (`id`,
`imageUrl`, `imageUrls`) plus an opaque `payload` string standing for
the remaining business fields (date, title, description, ...), which
the core never interprets.
-/

namespace FireOp

/-- One entry of `AppSettings.categories` (`CategoryItem` in types.ts). -/
structure CategoryItem where
  id : String
  label : String
deriving DecidableEq, Repr

/-- `AppSettings` from types.ts: every field is required on the in-memory
object. -/
structure AppSettings where
  systemName : String
  subTitle : String
  logoUrl : String
  themeColor : String
  categories : List CategoryItem
deriving DecidableEq, Repr

/-- `DEFAULT_SETTINGS` from the App component. -/
def DEFAULT_SETTINGS : AppSettings :=
  { systemName := "สถานีไฟป่า"
    subTitle := "สลักพระ-เอราวัณ"
    logoUrl := ""
    themeColor := "orange"
    categories :=
      [ ⟨"MAINTENANCE", "ซ่อมบำรุง/เตรียมอุปกรณ์"⟩
      , ⟨"PR", "ประชาสัมพันธ์"⟩
      , ⟨"MANPOWER", "เตรียมกำลังพล"⟩
      , ⟨"FIREBREAK", "ทำแนวกันไฟ"⟩
      , ⟨"PRESCRIBED_BURN", "ชิงเผา (วิชาการ)"⟩
      , ⟨"FIREFIGHTING", "เข้าดับไฟป่า"⟩
      , ⟨"JOINT_OPS", "บูรณาการร่วม (สนธิกำลัง)"⟩
      , ⟨"COMMUNITY", "ปฏิสัมพันธ์ชุมชน"⟩
      , ⟨"LESSON_LEARNED", "ถอดบทเรียน"⟩ ] }

/-- An in-memory `ActivityLog` record: `id`, the image fields the read
path rewrites, and an opaque payload for all other business fields. -/
structure ActivityLog where
  id : String
  imageUrl : Option String
  imageUrls : List String
  payload : String
deriving DecidableEq, Repr

/-- A `HotspotLog` record: `id` plus an opaque payload for the other
fields (date, round, counts, remark). -/
structure HotspotLog where
  id : String
  payload : String
deriving DecidableEq, Repr

/-! ### String helpers used by `fixDriveUrl`

`String.includes` and the regular-expression match `/id=([^&]+)/` from
`apiService.ts` are modelled over character lists. -/

/-- `startsWithChars hay needle` holds when `needle` is a leading
segment of `hay`. -/
def startsWithChars : List Char → List Char → Bool
  | _, [] => true
  | [], _ :: _ => false
  | h :: t, n :: ns => (h = n) && startsWithChars t ns

/-- `containsChars hay needle`: does `needle` occur contiguously inside
`hay`?  Models JavaScript `hay.includes(needle)`. -/
def containsChars : List Char → List Char → Bool
  | [], needle => needle.isEmpty
  | h :: t, needle => startsWithChars (h :: t) needle || containsChars t needle

/-- JavaScript `hay.includes(needle)` on strings. -/
def strIncludes (hay needle : String) : Bool :=
  containsChars hay.toList needle.toList

/-- The match `/id=([^&]+)/`: scan left to right for an occurrence of
`id=` followed by at least one character other than `&`; on the first
such occurrence return the maximal run of non-`&` characters (the
capture group).  Returns `none` when no position matches, exactly as
`String.match` returns `null`. -/
def matchIdParam : List Char → Option (List Char)
  | 'i' :: 'd' :: '=' :: rest =>
    let grp := rest.takeWhile (fun c => c ≠ '&')
    if grp.isEmpty then matchIdParam ('d' :: '=' :: rest) else some grp
  | _ :: rest => matchIdParam rest
  | [] => none
termination_by l => l.length
decreasing_by all_goals (simp; try omega)

/-- `fixDriveUrl` from `apiService.ts`: rewrite a Google Drive
download/view URL into a thumbnail URL.  The guard `if (!url)` is the
JavaScript falsy test, which for a string means emptiness. -/
def fixDriveUrl (url : String) : String :=
  if url = "" then url
  else if strIncludes url "drive.google.com" && strIncludes url "id=" then
    match matchIdParam url.toList with
    | some grp =>
        "https://drive.google.com/thumbnail?id=" ++ String.mk grp ++ "&sz=w1024"
    | none => url
  else url

/-! ### Remote responses -/

/-- The JSON value a list endpoint resolves with, as far as the client
observes it: an array of items, JSON `null`, or any other non-array
value (carried as an opaque tag).  The client only ever branches on
`Array.isArray`. -/
inductive Jsonish (α : Type) where
  | arr (items : List α)
  | nullv
  | other (v : String)
deriving DecidableEq, Repr

/-- A raw activity item as the remote store returns it: `imageUrl` may
be absent (`none`), `imageUrls` may be absent or not an array (`none`);
`payload` stands for the remaining fields spread through `...item`. -/
structure RemoteActivity where
  id : String
  imageUrl : Option String
  imageUrls : Option (List String)
  payload : String
deriving DecidableEq, Repr

/-- The per-item transformation applied by `apiService.getActivities`:
`{...item, imageUrl: item.imageUrl ? fixDriveUrl(item.imageUrl) :
undefined, imageUrls: item.imageUrls && Array.isArray(item.imageUrls) ?
item.imageUrls.map(fixDriveUrl) : []}`. -/
def processActivity (item : RemoteActivity) : ActivityLog :=
  { id := item.id
    imageUrl :=
      match item.imageUrl with
      | some u => if u = "" then none else some (fixDriveUrl u)
      | none => none
    imageUrls :=
      match item.imageUrls with
      | some l => l.map fixDriveUrl
      | none => []
    payload := item.payload }

/-- `apiService.getActivities` applied to the raw remote response: if
the response is an array, map every item through the image-URL fix;
otherwise the empty list. -/
def getActivities (res : Jsonish RemoteActivity) : List ActivityLog :=
  match res with
  | .arr items => items.map processActivity
  | _ => []

/-- `apiService.getHotspots`: `Array.isArray(res) ? res : []`. -/
def getHotspots (res : Jsonish HotspotLog) : List HotspotLog :=
  match res with
  | .arr items => items
  | _ => []

/-! ### `sendRequest` (apiService.ts) -/

/-- The two observations `sendRequest` makes of a parsed JSON body:
the value of `data.status` and the value of `data.message` (`none` when
the field is absent — e.g. when the body parsed to an array or a
primitive, whose property accesses yield `undefined`). -/
structure JsonBody where
  statusField : Option String
  messageField : Option String
deriving DecidableEq, Repr

/-- The body of an HTTP response, after the `response.text()` /
`JSON.parse` step: not parseable as JSON (carrying the raw text), the
text `null` (which `JSON.parse` accepts, yielding the value `null` —
the one parse result on which a property access throws), or any
non-null parsed value, on which `.status` / `.message` accesses yield
`undefined` at worst. -/
inductive BodyParse where
  | notJson (raw : String)
  | parsedNull
  | parsed (v : JsonBody)
deriving DecidableEq, Repr

/-- What the `fetch` call produced: a network-level rejection, or an
HTTP response with its `ok` flag (2xx), numeric status, and body. -/
inductive FetchResult where
  | networkError (e : String)
  | response (ok : Bool) (code : Nat) (body : BodyParse)
deriving DecidableEq, Repr

/-- `data.message || 'Unknown API Error'`: the JavaScript falsy-or on
the message field (absent or empty string falls back). -/
def messageOrUnknown (m : Option String) : String :=
  match m with
  | some s => if s = "" then "Unknown API Error" else s
  | none => "Unknown API Error"

/-- `sendRequest` from `apiService.ts`, as a function from the fetch
outcome to resolve/reject.  When the body parses to JSON `null`, the
unguarded `data.status` access throws a `TypeError`, which the outer
`catch` logs and rethrows; in every other path the outer `try/catch`
does not change the result. -/
def sendRequest (r : FetchResult) : Except String JsonBody :=
  match r with
  | .networkError e => .error e
  | .response ok code body =>
    if ok = false then .error ("HTTP Error: " ++ toString code)
    else
      match body with
      | .notJson _ =>
          .error "Server response is not valid JSON. The script might have crashed or returned an HTML error page."
      | .parsedNull =>
          .error "TypeError: Cannot read properties of null (reading 'status')"
      | .parsed v =>
          if v.statusField = some "error" then
            .error (messageOrUnknown v.messageField)
          else .ok v

/-! ### Settings merge -/

/-- A settings object as fetched from the remote store or read back
from the cache: any field may be missing (`none`), since the sheet row
is not validated against the `AppSettings` shape. -/
structure FetchedSettings where
  systemName : Option String
  subTitle : Option String
  logoUrl : Option String
  themeColor : Option String
  categories : Option (List CategoryItem)
deriving DecidableEq, Repr

/-- The shallow spread `{...prev, ...fetched}` applied by `loadData`:
a field present on `fetched` overwrites `prev`'s, an absent field keeps
`prev`'s value. -/
def mergeSettings (prev : AppSettings) (f : FetchedSettings) : AppSettings :=
  { systemName := f.systemName.getD prev.systemName
    subTitle := f.subTitle.getD prev.subTitle
    logoUrl := f.logoUrl.getD prev.logoUrl
    themeColor := f.themeColor.getD prev.themeColor
    categories := f.categories.getD prev.categories }

/-! ### App state and the stale-while-revalidate read path -/

/-- The `SyncStatus` union type of the App component. -/
inductive SyncStatus where
  | idle
  | syncing
  | success
  | error
deriving DecidableEq, Repr

/-- The Local Durable Cache: the five `localStorage` keys of
`CACHE_KEYS` (`activities`, `hotspots`, `settings`, `fireIncidents`,
`timestamp`); `none` models an absent or corrupt entry, which
`getFromCache` reads as `null`. -/
structure CacheState where
  activities : Option (List ActivityLog)
  hotspots : Option (List HotspotLog)
  settings : Option FetchedSettings
  fireIncidents : Option (List String)
  timestamp : Option Nat
deriving DecidableEq, Repr

/-- The slice of the App component's state the sync core owns.
`statusResetDelay` records the delay (ms) of the pending
`setTimeout(() => setSyncStatus('idle'), d)`, `none` when no reset is
scheduled. -/
structure AppState where
  activities : List ActivityLog
  hotspotLogs : List HotspotLog
  appSettings : AppSettings
  isInitialLoad : Bool
  syncStatus : SyncStatus
  syncMessage : String
  errorMsg : Option String
  statusResetDelay : Option Nat
deriving DecidableEq, Repr

/-- The component's initial state (the `useState` initialisers). -/
def initialAppState : AppState :=
  { activities := []
    hotspotLogs := []
    appSettings := DEFAULT_SETTINGS
    isInitialLoad := true
    syncStatus := .idle
    syncMessage := ""
    errorMsg := none
    statusResetDelay := none }

/-- Firing the scheduled status-reset timer: `setSyncStatus('idle')`.
When no timer is pending the state is unchanged. -/
def fireStatusReset (s : AppState) : AppState :=
  match s.statusResetDelay with
  | some _ => { s with syncStatus := .idle, statusResetDelay := none }
  | none => s

/-- The outcome of the joined `Promise.all` in `loadData`: either all
three fetches resolved (carrying the raw remote responses for
activities and hotspots and the possibly-null settings row), or the
batch rejected with `err` whose `.message` is `m` (`none` when the
message is absent or empty — the JavaScript falsy test). -/
inductive FetchOutcome where
  | ok (ra : Jsonish RemoteActivity) (rh : Jsonish HotspotLog)
      (fs : Option FetchedSettings)
  | fail (m : Option String)

/-- `loadData` from the current App component, run to completion from
`initialAppState`: paint from cache, enter `syncing`, then either
replace state with the fresh values or take the failure branch; the
`finally` step clears `isInitialLoad` in every case. -/
def loadData (cache : CacheState) (outcome : FetchOutcome) : AppState :=
  let s0 := initialAppState
  let s1 : AppState :=
    { s0 with
      activities := cache.activities.getD s0.activities
      hotspotLogs := cache.hotspots.getD s0.hotspotLogs
      appSettings :=
        match cache.settings with
        | some cs => mergeSettings s0.appSettings cs
        | none => s0.appSettings
      isInitialLoad :=
        if cache.activities.isSome && cache.hotspots.isSome then false
        else s0.isInitialLoad }
  let s2 : AppState :=
    { s1 with syncStatus := .syncing, syncMessage := "กำลังอัปเดตข้อมูลล่าสุด..." }
  match outcome with
  | .ok ra rh fs =>
    { s2 with
      activities := getActivities ra
      hotspotLogs := getHotspots rh
      appSettings :=
        match fs with
        | some f => mergeSettings s2.appSettings f
        | none => s2.appSettings
      syncStatus := .success
      syncMessage := "ข้อมูลล่าสุดแล้ว"
      statusResetDelay := some 2000
      isInitialLoad := false }
  | .fail m =>
    if cache.activities.isSome || cache.hotspots.isSome then
      { s2 with
        syncStatus := .error
        syncMessage := "ไม่สามารถอัปเดตข้อมูล (แสดงข้อมูลเก่า)"
        statusResetDelay := some 5000
        isInitialLoad := false }
    else
      { s2 with
        errorMsg := some (m.getD "ไม่สามารถเชื่อมต่อกับฐานข้อมูลได้")
        isInitialLoad := false }

/-- What `renderContent` shows, restricted to the three top-level
branches: the initial-load spinner, the blocking full-screen
connection-error view (carrying `errorMsg`), or the normal content. -/
inductive ViewKind where
  | loadingScreen
  | errorScreen (msg : String)
  | content
deriving DecidableEq, Repr

/-- The branch structure at the top of `renderContent`. -/
def renderKind (s : AppState) : ViewKind :=
  if s.isInitialLoad && s.activities.isEmpty && s.hotspotLogs.isEmpty then
    .loadingScreen
  else
    match s.errorMsg with
    | some m => .errorScreen m
    | none => .content

/-! ### Optimistic write handlers (current App component)

Each handler is embedded as a function on the collection it mutates,
parametrised by the outcome of the remote call (`Except String Unit`:
`.error e` models a rejected promise).  The optimistic step and, on
failure, the rollback are composed sequentially, exactly as the
`async` handler runs them. -/

/-- `handleSaveActivity`: optimistic prepend (create) or
map-replace-by-id (update); on rejection the create path filters the
new id back out, while the update path re-reads the collection
(`apiService.getActivities().then(setActivities)`).  `refetch` is the
outcome of that re-read; when it itself rejects, the `.then` callback
never runs and the optimistic value stays. -/
def handleSaveActivity (prev : List ActivityLog) (activityData : ActivityLog)
    (isUpdate : Bool) (remote : Except String Unit)
    (refetch : Except String (Jsonish RemoteActivity)) : List ActivityLog :=
  let optimistic :=
    if isUpdate then prev.map (fun a => if a.id == activityData.id then activityData else a)
    else activityData :: prev
  match remote with
  | .ok _ => optimistic
  | .error _ =>
    if isUpdate then
      match refetch with
      | .ok res => getActivities res
      | .error _ => optimistic
    else
      optimistic.filter (fun a => a.id != activityData.id)

/-- `handleDeleteActivity`: capture `backup = activities.find(a => a.id
=== id)`, optimistically filter the id out; on rejection re-insert the
backup at the end (`[...prev, backup]`) when one was captured. -/
def handleDeleteActivity (prev : List ActivityLog) (id : String)
    (remote : Except String Unit) : List ActivityLog :=
  let backup := prev.find? (fun a => a.id == id)
  let removed := prev.filter (fun a => a.id != id)
  match remote with
  | .ok _ => removed
  | .error _ =>
    match backup with
    | some b => removed ++ [b]
    | none => removed

/-- `handleSaveHotspot`: optimistic prepend; on rejection filter the
new id back out. -/
def handleSaveHotspot (prev : List HotspotLog) (newHotspot : HotspotLog)
    (remote : Except String Unit) : List HotspotLog :=
  let optimistic := newHotspot :: prev
  match remote with
  | .ok _ => optimistic
  | .error _ => optimistic.filter (fun h => h.id != newHotspot.id)

/-- `handleDeleteHotspot`: same shape as `handleDeleteActivity`. -/
def handleDeleteHotspot (prev : List HotspotLog) (id : String)
    (remote : Except String Unit) : List HotspotLog :=
  let backup := prev.find? (fun h => h.id == id)
  let removed := prev.filter (fun h => h.id != id)
  match remote with
  | .ok _ => removed
  | .error _ =>
    match backup with
    | some b => removed ++ [b]
    | none => removed

/-! ### Factory reset -/

/-- `clearCache` / the cache-clearing loop in `factoryReset`:
`Object.values(CACHE_KEYS).forEach(key => localStorage.removeItem(key))`. -/
def clearCache (_cache : CacheState) : CacheState :=
  { activities := none, hotspots := none, settings := none
    fireIncidents := none, timestamp := none }

/-- `apiService.factoryReset`: three sequential `reset` requests
(Activities, Hotspots, Settings); an awaited rejection propagates at
once, so later requests are not issued and the cache keys are removed
only after all three succeed. -/
def factoryReset (o1 o2 o3 : Except String Unit) (cache : CacheState) :
    Except String Unit × CacheState :=
  match o1 with
  | .error e => (.error e, cache)
  | .ok _ =>
    match o2 with
    | .error e => (.error e, cache)
    | .ok _ =>
      match o3 with
      | .error e => (.error e, cache)
      | .ok _ => (.ok (), clearCache cache)

/-- `handleFactoryReset` in the current App component: await
`apiService.factoryReset()`; only in the success branch clear the three
in-memory collections to their empty/default values; in the catch
branch set only the status indicator. -/
def handleFactoryReset (st : AppState) (cache : CacheState)
    (o1 o2 o3 : Except String Unit) : AppState × CacheState :=
  let s1 := { st with syncStatus := SyncStatus.syncing,
                      syncMessage := "กำลังล้างข้อมูลระบบ..." }
  match factoryReset o1 o2 o3 cache with
  | (.ok _, cache') =>
    ({ s1 with activities := []
               hotspotLogs := []
               appSettings := DEFAULT_SETTINGS
               syncStatus := .success
               syncMessage := "ล้างข้อมูลระบบเรียบร้อยแล้ว"
               statusResetDelay := some 2000 }, cache')
  | (.error e, cache') =>
    ({ s1 with syncStatus := .error
               syncMessage := "ล้างข้อมูลไม่สำเร็จ: " ++ e
               statusResetDelay := some 5000 }, cache')

/-! ### Helper lemmas

Generic facts about `find?`/`filter` under a key function with
pairwise-distinct keys; both delete handlers instantiate them with
`(·.id)`. -/

/-- When keys are pairwise distinct, `find?` by the key of a member
returns exactly that member. -/
theorem find_key_eq {α : Type} (k : α → String) (l : List α) (a : α)
    (hn : (l.map k).Nodup) (ha : a ∈ l) :
    l.find? (fun x => k x == k a) = some a := by
  induction l with
  | nil => cases ha
  | cons b t ih =>
    simp only [List.map_cons, List.nodup_cons] at hn
    rcases List.mem_cons.mp ha with rfl | hat
    · simp [List.find?_cons]
    · have hne : (k b == k a) = false := by
        simp only [beq_eq_false_iff_ne, ne_eq]
        intro hEq
        exact hn.1 (hEq ▸ List.mem_map_of_mem k hat)
      simp only [List.find?_cons, hne]
      exact ih hn.2 hat

/-- When keys are pairwise distinct and `a ∈ l`, filtering out `a`'s
key and appending `a` at the end is a permutation of `l`. -/
theorem filter_key_append_perm {α : Type} (k : α → String) (l : List α) (a : α)
    (hn : (l.map k).Nodup) (ha : a ∈ l) :
    (l.filter (fun x => k x != k a) ++ [a]).Perm l := by
  induction l with
  | nil => cases ha
  | cons b t ih =>
    simp only [List.map_cons, List.nodup_cons] at hn
    rcases List.mem_cons.mp ha with rfl | hat
    · have ht : t.filter (fun x => k x != k a) = t := by
        rw [List.filter_eq_self]
        intro x hx
        simp only [bne_iff_ne, ne_eq]
        intro hEq
        exact hn.1 (hEq ▸ List.mem_map_of_mem k hx)
      simp only [List.filter_cons, bne_self_eq_false, ht]
      simp only [Bool.false_eq_true, if_false]
      exact List.perm_append_singleton a t
    · have hkh : (k b != k a) = true := by
        simp only [bne_iff_ne, ne_eq]
        intro hEq
        exact hn.1 (hEq ▸ List.mem_map_of_mem k hat)
      simp only [List.filter_cons, hkh, if_true]
      simpa using (ih hn.2 hat).cons b

/-- On a rejected delete, the handler's result is exactly
`filter ++ [R]`, because `find?` recovers `R` itself. -/
theorem handleDeleteActivity_error_eq (prev : List ActivityLog)
    (R : ActivityLog) (e : String)
    (hn : (prev.map (fun a => a.id)).Nodup) (hR : R ∈ prev) :
    handleDeleteActivity prev R.id (.error e)
      = prev.filter (fun a => a.id != R.id) ++ [R] := by
  have hfind : prev.find? (fun a => a.id == R.id) = some R :=
    find_key_eq (fun a => a.id) prev R hn hR
  simp [handleDeleteActivity, hfind]

/-- Hotspot analogue of `handleDeleteActivity_error_eq`. -/
theorem handleDeleteHotspot_error_eq (prev : List HotspotLog)
    (H : HotspotLog) (e : String)
    (hn : (prev.map (fun h => h.id)).Nodup) (hH : H ∈ prev) :
    handleDeleteHotspot prev H.id (.error e)
      = prev.filter (fun h => h.id != H.id) ++ [H] := by
  have hfind : prev.find? (fun h => h.id == H.id) = some H :=
    find_key_eq (fun h => h.id) prev H hn hH
  simp [handleDeleteHotspot, hfind]

/-! ### Concrete sample records used by witnesses -/

/-- Sample activity record. -/
def actA : ActivityLog := ⟨"a1", none, [], "patrol"⟩

/-- Second sample activity record, with a different id. -/
def actB : ActivityLog := ⟨"b2", none, [], "firebreak"⟩

/-- Sample hotspot record. -/
def hotA : HotspotLog := ⟨"h1", "round 02:00"⟩

/-- Second sample hotspot record, with a different id. -/
def hotB : HotspotLog := ⟨"h2", "round 14:00"⟩

/-! ### Claims -/

/-- Claim C1 (rollback-on-create-failure): for a record with
client-allocated id `X` and an in-memory collection holding no record
with id `X`, a create (`handleSaveActivity` with `isUpdate = false`, or
`handleSaveHotspot`) whose remote call rejects leaves the collection
free of any record with id `X` — the optimistically prepended record is
filtered back out by id, restoring the original list. -/
theorem C1_rollback_on_create_failure
    (prevA : List ActivityLog) (R : ActivityLog) (e : String)
    (refetch : Except String (Jsonish RemoteActivity))
    (prevH : List HotspotLog) (H : HotspotLog) (eH : String)
    (hA : ∀ a ∈ prevA, a.id ≠ R.id) (hH : ∀ h ∈ prevH, h.id ≠ H.id) :
    handleSaveActivity prevA R false (.error e) refetch = prevA ∧
    (∀ a ∈ handleSaveActivity prevA R false (.error e) refetch, a.id ≠ R.id) ∧
    handleSaveHotspot prevH H (.error eH) = prevH ∧
    (∀ h ∈ handleSaveHotspot prevH H (.error eH), h.id ≠ H.id) := by
  have eqA : handleSaveActivity prevA R false (.error e) refetch = prevA := by
    simp only [handleSaveActivity, if_false, Bool.false_eq_true]
    rw [List.filter_cons]
    simp only [bne_self_eq_false, Bool.false_eq_true, if_false]
    rw [List.filter_eq_self]
    intro a ha
    simp only [bne_iff_ne, ne_eq]
    exact hA a ha
  have eqH : handleSaveHotspot prevH H (.error eH) = prevH := by
    simp only [handleSaveHotspot]
    rw [List.filter_cons]
    simp only [bne_self_eq_false, Bool.false_eq_true, if_false]
    rw [List.filter_eq_self]
    intro h hh
    simp only [bne_iff_ne, ne_eq]
    exact hH h hh
  refine ⟨eqA, ?_, eqH, ?_⟩
  · rw [eqA]; exact hA
  · rw [eqH]; exact hH

/-- Witness for C1: a concrete create of `actA` over `[actB]` (and
`hotA` over `[hotB]`) with a rejecting remote store rolls back to the
original lists. -/
theorem C1_witness :
    handleSaveActivity [actB] actA false (.error "HTTP Error: 500") (.error "x")
      = [actB] ∧
    handleSaveHotspot [hotB] hotA (.error "HTTP Error: 500") = [hotB] :=
  ⟨(C1_rollback_on_create_failure [actB] actA "HTTP Error: 500" (.error "x")
      [hotB] hotA "HTTP Error: 500" (by decide) (by decide)).1,
   (C1_rollback_on_create_failure [actB] actA "HTTP Error: 500" (.error "x")
      [hotB] hotA "HTTP Error: 500" (by decide) (by decide)).2.2.1⟩

/-- Claim C2 (rollback-on-delete-failure): deleting a record `R`
present in a collection with pairwise-distinct ids (the data-model
invariant: exactly one in-memory copy per id), when the remote call
rejects, restores the full record `R` — the element re-inserted is the
backup captured by `find?` before the optimistic removal, equal to `R`
in every field, not merely in id. -/
theorem C2_rollback_on_delete_failure
    (prevA : List ActivityLog) (R : ActivityLog) (e : String)
    (prevH : List HotspotLog) (H : HotspotLog) (eH : String)
    (hnA : (prevA.map (fun a => a.id)).Nodup) (hRA : R ∈ prevA)
    (hnH : (prevH.map (fun h => h.id)).Nodup) (hHH : H ∈ prevH) :
    R ∈ handleDeleteActivity prevA R.id (.error e) ∧
    H ∈ handleDeleteHotspot prevH H.id (.error eH) := by
  constructor
  · rw [handleDeleteActivity_error_eq prevA R e hnA hRA]
    exact List.mem_append_right _ (List.mem_singleton.mpr rfl)
  · rw [handleDeleteHotspot_error_eq prevH H eH hnH hHH]
    exact List.mem_append_right _ (List.mem_singleton.mpr rfl)

/-- Witness for C2: deleting `actA` from `[actA, actB]` (and `hotA`
from `[hotA, hotB]`) against a rejecting remote store leaves the full
record back in the collection. -/
theorem C2_witness :
    actA ∈ handleDeleteActivity [actA, actB] "a1" (.error "HTTP 500") ∧
    hotA ∈ handleDeleteHotspot [hotA, hotB] "h1" (.error "HTTP 500") :=
  C2_rollback_on_delete_failure [actA, actB] actA "HTTP 500"
    [hotA, hotB] hotA "HTTP 500" (by decide) (by decide) (by decide) (by decide)

/-- Claim C5 (update-failure rollback by refetch): when an update
(`handleSaveActivity` with `isUpdate = true`) is rejected by the remote
store, the in-memory activities collection is replaced by the result of
re-reading the authoritative collection (`apiService.getActivities`),
independent of the optimistic map-replace-by-id edit. -/
theorem C5_update_failure_rollback_by_refetch
    (prev : List ActivityLog) (activityData : ActivityLog) (e : String)
    (res : Jsonish RemoteActivity) :
    handleSaveActivity prev activityData true (.error e) (.ok res)
      = getActivities res := rfl

/-- Claim C3 (revalidation overwrite): once the mount-time revalidation
resolves, the in-memory activities and hotspots equal the
remote-returned lists exactly — a replacement independent of whatever
the cache held, not a merge — where `getActivities` maps every remote
item through `fixDriveUrl` and supplies a default empty `imageUrls`
(via `processActivity`). -/
theorem C3_revalidation_overwrite
    (cache : CacheState) (ra : Jsonish RemoteActivity) (rh : Jsonish HotspotLog)
    (fs : Option FetchedSettings) (items : List RemoteActivity) :
    (loadData cache (.ok ra rh fs)).activities = getActivities ra ∧
    (loadData cache (.ok ra rh fs)).hotspotLogs = getHotspots rh ∧
    getActivities (.arr items) = items.map processActivity := ⟨rfl, rfl, rfl⟩

/-- Claim C4 (read-path failure branching): when the mount-time fetch
batch rejects, then (a) with any cached activities or hotspots entry
present the state keeps the cache-painted collections, only the
transient status turns `error` (reset to `idle` scheduled after
5000 ms), no blocking error is set and the normal content still
renders; (b) with neither entry present (cached settings alone do not
count) the blocking full-screen error view carrying the raw error
message is surfaced instead. -/
theorem C4_read_failure_branching (cache : CacheState) (m : Option String) :
    (cache.activities.isSome ∨ cache.hotspots.isSome →
      (loadData cache (.fail m)).activities = cache.activities.getD [] ∧
      (loadData cache (.fail m)).hotspotLogs = cache.hotspots.getD [] ∧
      (loadData cache (.fail m)).syncStatus = .error ∧
      (loadData cache (.fail m)).statusResetDelay = some 5000 ∧
      (loadData cache (.fail m)).errorMsg = none ∧
      renderKind (loadData cache (.fail m)) = .content ∧
      (fireStatusReset (loadData cache (.fail m))).syncStatus = .idle) ∧
    (cache.activities = none ∧ cache.hotspots = none →
      (loadData cache (.fail m)).errorMsg
        = some (m.getD "ไม่สามารถเชื่อมต่อกับฐานข้อมูลได้") ∧
      renderKind (loadData cache (.fail m))
        = .errorScreen (m.getD "ไม่สามารถเชื่อมต่อกับฐานข้อมูลได้")) := by
  obtain ⟨ca, ch, cs, cf, ct⟩ := cache
  cases ca <;> cases ch <;>
    simp [loadData, renderKind, fireStatusReset, initialAppState]

/-- Witness for C4: a cache with one activity triggers the transient
error branch; a cache holding only settings triggers the blocking
error branch with the raw message. -/
theorem C4_witness :
    (loadData ⟨some [actA], none, none, none, none⟩ (.fail (some "network error"))).syncStatus
      = SyncStatus.error ∧
    (loadData ⟨none, none, some ⟨none, none, none, none, none⟩, none, none⟩
        (.fail (some "network error"))).errorMsg = some "network error" :=
  ⟨((C4_read_failure_branching ⟨some [actA], none, none, none, none⟩
      (some "network error")).1 (Or.inl rfl)).2.2.1,
   ((C4_read_failure_branching ⟨none, none, some ⟨none, none, none, none, none⟩, none, none⟩
      (some "network error")).2 ⟨rfl, rfl⟩).1⟩

/-- Claim C7 (settings merge preserves missing fields): the shallow
spread `{...prev, ...fetched}` used on the read path keeps the current
`categories` whenever the fetched object omits it, and likewise never
overwrites any other field the fetched object omits; moreover the
read path applies exactly this merge to the pre-merge settings. -/
theorem C7_settings_merge_preserves_missing
    (S : AppSettings) (F : FetchedSettings)
    (cache : CacheState) (ra : Jsonish RemoteActivity) (rh : Jsonish HotspotLog)
    (hc : F.categories = none) :
    (mergeSettings S F).categories = S.categories ∧
    (F.systemName = none → (mergeSettings S F).systemName = S.systemName) ∧
    (F.subTitle = none → (mergeSettings S F).subTitle = S.subTitle) ∧
    (F.logoUrl = none → (mergeSettings S F).logoUrl = S.logoUrl) ∧
    (F.themeColor = none → (mergeSettings S F).themeColor = S.themeColor) ∧
    (loadData cache (.ok ra rh (some F))).appSettings
      = mergeSettings (loadData cache (.ok ra rh none)).appSettings F := by
  refine ⟨by simp [mergeSettings, hc], ?_, ?_, ?_, ?_, rfl⟩ <;>
    (intro h; simp [mergeSettings, h])

/-- Witness for C7: merging a fetched object that only sets
`systemName` keeps the current categories. -/
theorem C7_witness :
    (mergeSettings DEFAULT_SETTINGS ⟨some "สถานีไฟป่า 2", none, none, none, none⟩).categories
      = DEFAULT_SETTINGS.categories :=
  (C7_settings_merge_preserves_missing DEFAULT_SETTINGS
    ⟨some "สถานีไฟป่า 2", none, none, none, none⟩
    ⟨none, none, none, none, none⟩ .nullv .nullv rfl).1

/-- Claim C8 (null/non-array tolerance): a remote response of `null` or
any non-array value on a list endpoint yields the empty list from
`getActivities`/`getHotspots`, and the in-memory collections after the
read path are that empty list — never `null`, never a crash. -/
theorem C8_null_tolerance (v : String) (cache : CacheState)
    (fs : Option FetchedSettings) :
    getActivities .nullv = [] ∧ getActivities (.other v) = [] ∧
    getHotspots .nullv = [] ∧ getHotspots (.other v) = [] ∧
    (loadData cache (.ok .nullv (.other v) fs)).activities = [] ∧
    (loadData cache (.ok .nullv (.other v) fs)).hotspotLogs = [] :=
  ⟨rfl, rfl, rfl, rfl, rfl, rfl⟩

/-- Claim C6 (factory-reset atomicity on failure): if any of the three
remote reset calls rejects, the in-memory collections (activities,
hotspots, settings) and every Local Durable Cache entry are left
unchanged — local state is cleared only in the success branch of
`handleFactoryReset`, and the cache keys are removed only after all
three remote resets succeed. -/
theorem C6_factory_reset_atomicity
    (st : AppState) (cache : CacheState) (o1 o2 o3 : Except String Unit)
    (h : ¬(o1 = .ok () ∧ o2 = .ok () ∧ o3 = .ok ())) :
    (handleFactoryReset st cache o1 o2 o3).1.activities = st.activities ∧
    (handleFactoryReset st cache o1 o2 o3).1.hotspotLogs = st.hotspotLogs ∧
    (handleFactoryReset st cache o1 o2 o3).1.appSettings = st.appSettings ∧
    (handleFactoryReset st cache o1 o2 o3).2 = cache := by
  rcases o1 with e1 | u1
  · simp [handleFactoryReset, factoryReset]
  · rcases o2 with e2 | u2
    · simp [handleFactoryReset, factoryReset]
    · rcases o3 with e3 | u3
      · simp [handleFactoryReset, factoryReset]
      · exact absurd ⟨rfl, rfl, rfl⟩ h

/-- Witness for C6: the second reset call rejecting leaves the
activities list and the cache untouched. -/
theorem C6_witness :
    (handleFactoryReset
        { initialAppState with activities := [actA] }
        ⟨some [actA], none, none, none, some 7⟩
        (.ok ()) (.error "HTTP Error: 500") (.ok ())).1.activities = [actA] ∧
    (handleFactoryReset
        { initialAppState with activities := [actA] }
        ⟨some [actA], none, none, none, some 7⟩
        (.ok ()) (.error "HTTP Error: 500") (.ok ())).2
      = ⟨some [actA], none, none, none, some 7⟩ :=
  ⟨(C6_factory_reset_atomicity { initialAppState with activities := [actA] }
      ⟨some [actA], none, none, none, some 7⟩
      (.ok ()) (.error "HTTP Error: 500") (.ok ())
      (by intro hcon; exact Except.noConfusion hcon.2.1)).1,
   (C6_factory_reset_atomicity { initialAppState with activities := [actA] }
      ⟨some [actA], none, none, none, some 7⟩
      (.ok ()) (.error "HTTP Error: 500") (.ok ())
      (by intro hcon; exact Except.noConfusion hcon.2.1)).2.2.2⟩

/-- Counterexample to claim C9 as stated: a 2xx response whose body is
the valid JSON text `null` — not a non-2xx response, not an
unparseable body, and its parsed value has no `status: 'error'` — yet
`sendRequest` rejects instead of resolving: the unguarded
`data.status` access throws a `TypeError` and the outer `catch`
rethrows it. -/
theorem C9_counterexample :
    sendRequest (.response true 200 BodyParse.parsedNull)
      = .error "TypeError: Cannot read properties of null (reading 'status')" := rfl

/-- Claim C9 as amended (remote-call error taxonomy): over every HTTP
response, `sendRequest` rejects exactly in four cases — non-2xx
response, non-JSON body, a body parsing to JSON `null` (the unguarded
`data.status` access throws a `TypeError`, rethrown by the outer
`catch`), or a parsed body with status `error` (then carrying the
server message with fallback `Unknown API Error` for an absent or
empty one) — and in every other case resolves with the parsed body. -/
theorem C9_error_taxonomy (code : Nat) (body : BodyParse) (v : JsonBody)
    (raw : String) :
    sendRequest (.response false code body)
      = .error ("HTTP Error: " ++ toString code) ∧
    sendRequest (.response true code (.notJson raw))
      = .error "Server response is not valid JSON. The script might have crashed or returned an HTML error page." ∧
    sendRequest (.response true code .parsedNull)
      = .error "TypeError: Cannot read properties of null (reading 'status')" ∧
    (v.statusField = some "error" →
      sendRequest (.response true code (.parsed v))
        = .error (messageOrUnknown v.messageField)) ∧
    (v.statusField ≠ some "error" →
      sendRequest (.response true code (.parsed v)) = .ok v) ∧
    messageOrUnknown (some "quota exceeded") = "quota exceeded" ∧
    messageOrUnknown (some "") = "Unknown API Error" ∧
    messageOrUnknown none = "Unknown API Error" := by
  refine ⟨rfl, rfl, rfl, ?_, ?_, rfl, rfl, rfl⟩
  · intro hv; simp [sendRequest, hv]
  · intro hv; simp [sendRequest, hv]

/-- Witness for C9: an application-level error body rejects with the
server message; a success body resolves. -/
theorem C9_witness :
    sendRequest (.response true 200 (.parsed ⟨some "error", some "quota exceeded"⟩))
      = .error "quota exceeded" ∧
    sendRequest (.response true 200 (.parsed ⟨some "success", none⟩))
      = .ok ⟨some "success", none⟩ :=
  ⟨(C9_error_taxonomy 200 (.parsed ⟨some "error", some "quota exceeded"⟩)
      ⟨some "error", some "quota exceeded"⟩ "").2.2.2.1 rfl,
   (C9_error_taxonomy 200 (.parsed ⟨some "success", none⟩)
      ⟨some "success", none⟩ "").2.2.2.2.1 (by decide)⟩

/-- Claim C10 (implicit — delete rollback changes list position): for a
collection with pairwise-distinct ids in which `R` occupies a non-final
index (it is not the last element), a delete of `R.id` whose remote
call rejects yields `filter ++ [R]` — the backup appended at the end —
hence a permutation of the original list holding exactly the same
records, but not the original order.  Both delete handlers behave this
way. -/
theorem C10_delete_rollback_appends_at_end
    (prevA : List ActivityLog) (R : ActivityLog) (e : String)
    (prevH : List HotspotLog) (H : HotspotLog) (eH : String)
    (hnA : (prevA.map (fun a => a.id)).Nodup) (hRA : R ∈ prevA)
    (hlastA : prevA.getLast? ≠ some R)
    (hnH : (prevH.map (fun h => h.id)).Nodup) (hHH : H ∈ prevH)
    (hlastH : prevH.getLast? ≠ some H) :
    handleDeleteActivity prevA R.id (.error e)
      = prevA.filter (fun a => a.id != R.id) ++ [R] ∧
    (handleDeleteActivity prevA R.id (.error e)).Perm prevA ∧
    handleDeleteActivity prevA R.id (.error e) ≠ prevA ∧
    handleDeleteHotspot prevH H.id (.error eH)
      = prevH.filter (fun h => h.id != H.id) ++ [H] ∧
    (handleDeleteHotspot prevH H.id (.error eH)).Perm prevH ∧
    handleDeleteHotspot prevH H.id (.error eH) ≠ prevH := by
  have eqA := handleDeleteActivity_error_eq prevA R e hnA hRA
  have eqH := handleDeleteHotspot_error_eq prevH H eH hnH hHH
  refine ⟨eqA, ?_, ?_, eqH, ?_, ?_⟩
  · rw [eqA]; exact filter_key_append_perm (fun a => a.id) prevA R hnA hRA
  · intro hcon
    apply hlastA
    rw [← hcon, eqA]
    exact List.getLast?_concat _
  · rw [eqH]; exact filter_key_append_perm (fun h => h.id) prevH H hnH hHH
  · intro hcon
    apply hlastH
    rw [← hcon, eqH]
    exact List.getLast?_concat _

/-- Witness for C10: deleting `actA` (first of two) against a rejecting
remote store produces `[actB, actA]` — same records, different order —
and likewise for hotspots. -/
theorem C10_witness :
    handleDeleteActivity [actA, actB] actA.id (.error "HTTP 500") = [actB, actA] ∧
    handleDeleteActivity [actA, actB] actA.id (.error "HTTP 500") ≠ [actA, actB] ∧
    handleDeleteHotspot [hotA, hotB] hotA.id (.error "HTTP 500") ≠ [hotA, hotB] := by
  have h := C10_delete_rollback_appends_at_end [actA, actB] actA "HTTP 500"
    [hotA, hotB] hotA "HTTP 500" (by decide) (by decide) (by decide)
    (by decide) (by decide) (by decide)
  exact ⟨by rw [h.1]; decide, h.2.2.1, h.2.2.2.2.2⟩

end FireOp
